import Mathlib

/-!
Verification of the authentication and session-lifecycle subsystem of the
KLMPEGASUS backend (Express + Prisma, TypeScript).

The embedded source files are:
  - `backend/src/middleware/auth.ts` — `authMiddleware`,
    `optionalAuthMiddleware`, `userRateLimit`;
  - the auth routes (`register`, `login`, `refresh`, `logout`,
    `change-password` handlers);
  - `backend/src/config/config.ts` — JWT configuration.

Modelling conventions:
  - Time is an abstract `Nat` in milliseconds (JavaScript `Date.now()`).
  - A JWT is either a signed payload (the ideal model of `jwt.sign`: the token
    records the signing secret and the payload, and `jwt.verify` succeeds
    exactly when the secret matches and the token is unexpired) or a malformed
    string.  `jsonwebtoken` raises `TokenExpiredError` (a subclass of
    `JsonWebTokenError`) when `now ≥ exp`.
  - `bcrypt` is modelled as an ideal (injective) hash.
  - The Prisma store is a `DB` structure holding the `User` and `UserSession`
    tables as lists; `findUnique` / `findFirst` are `List.find?`, and
    `update` / `updateMany` are `List.map` with the row predicate from the
    source.
  - The verdict of the external `express-validator` chains is passed to the
    handlers as a boolean parameter (`validationOk`), exactly as the handlers
    consume `validationResult(req)`.
-/

namespace KLM

/-- JWT payload as signed by `generateTokens` in the auth routes: the user's
id, email, role, subscription plan and status, plus the `iat`/`exp` stamps
added by `jwt.sign`. -/
structure JWTPayload where
  userId : String
  email : String
  role : String
  subscriptionPlan : String
  subscriptionStatus : String
  iat : Nat
  exp : Nat
deriving DecidableEq, Repr

/-- A token string: either a well-formed JWT signed with some secret, or an
arbitrary malformed string. -/
inductive Token where
  | signed : String → JWTPayload → Token
  | malformed : String → Token
deriving DecidableEq, Repr

/-- Errors raised by `jwt.verify`: `JsonWebTokenError` for a bad signature or
garbage, `TokenExpiredError` for a structurally valid but expired token. -/
inductive JwtError where
  | invalidToken
  | expiredToken
deriving DecidableEq, Repr

/-- `jwt.verify(token, secret)` at wall-clock time `now`: fails with
`JsonWebTokenError` unless the token was signed with `secret`, and with
`TokenExpiredError` when `now ≥ exp`. -/
def jwtVerify (tok : Token) (secret : String) (now : Nat) :
    Except JwtError JWTPayload :=
  match tok with
  | .malformed _ => .error .invalidToken
  | .signed s p =>
    if s ≠ secret then .error .invalidToken
    else if p.exp ≤ now then .error .expiredToken
    else .ok p

/-- A row of the Prisma `user` table (the columns this subsystem reads). -/
structure User where
  id : String
  email : String
  passwordHash : String
  firstName : String
  lastName : String
  role : String
  subscriptionPlan : String
  subscriptionStatus : String
  lastLogin : Option Nat
deriving DecidableEq, Repr

/-- A row of the Prisma `userSession` table. -/
structure UserSession where
  id : Nat
  userId : String
  token : Token
  refreshToken : Token
  expiresAt : Nat
  isActive : Bool
deriving DecidableEq, Repr

/-- The persistent store: the `user` and `userSession` tables, plus the id
counter the database uses for new session rows. -/
structure DB where
  users : List User
  sessions : List UserSession
  nextSessionId : Nat
deriving DecidableEq, Repr

/-- JWT section of `config.ts`: two independent secrets and the two token
lifetimes `JWT_EXPIRES_IN` / `JWT_REFRESH_EXPIRES_IN` (in ms). -/
structure JwtConfig where
  secret : String
  refreshSecret : String
  expiresIn : Nat
  refreshExpiresIn : Nat
deriving DecidableEq, Repr

/-- `prisma.user.findUnique({ where: { id } })`. -/
def findUser (db : DB) (uid : String) : Option User :=
  db.users.find? (fun u => u.id == uid)

/-- `prisma.user.findUnique({ where: { email } })`. -/
def findUserByEmail (db : DB) (email : String) : Option User :=
  db.users.find? (fun u => u.email == email)

/-- `prisma.user.update({ where: { id }, data: { lastLogin: new Date() } })`. -/
def updateLastLogin (db : DB) (uid : String) (now : Nat) : DB :=
  { db with users := db.users.map (fun u =>
      if u.id == uid then { u with lastLogin := some now } else u) }

/-- The identity attached to `req.user` by the middleware (the `select`
projection of the live `user` row). -/
structure UserView where
  id : String
  email : String
  role : String
  subscriptionPlan : String
  subscriptionStatus : String
deriving DecidableEq, Repr

/-- The `select` projection used by both middlewares. -/
def User.view (u : User) : UserView :=
  ⟨u.id, u.email, u.role, u.subscriptionPlan, u.subscriptionStatus⟩

/-- Machine-readable failure kinds of the modelled endpoints. -/
inductive ErrKind where
  | missingToken
  | malformedToken
  | expiredToken
  | userNotFound
  | accountInactive
  | missingRefreshToken
  | invalidRefreshToken
  | validationError
  | invalidCredentials
  | userExists
  | invalidCurrentPassword
  | internalError
deriving DecidableEq, Repr

/-- Result of `authMiddleware`: either `req.user` is attached, or an error
response with an HTTP status is sent. -/
inductive AuthResult where
  | ok (user : UserView)
  | err (status : Nat) (kind : ErrKind)
deriving DecidableEq, Repr

/-- `authMiddleware` from `auth.ts`: require a `Bearer` token (else 401),
`jwt.verify` it against `config.jwt.secret` (both `JsonWebTokenError` and
`TokenExpiredError` are answered with 401), re-read the live `user` row by
the token's `userId` (missing → 401), reject a non-ACTIVE subscription
status with 403, otherwise update `lastLogin` and attach the live record.
`authHeader = none` models a missing or non-`Bearer` authorization header. -/
def authMiddleware (cfg : JwtConfig) (db : DB) (authHeader : Option Token)
    (now : Nat) : AuthResult × DB :=
  match authHeader with
  | none => (.err 401 .missingToken, db)
  | some tok =>
    match jwtVerify tok cfg.secret now with
    | .error .invalidToken => (.err 401 .malformedToken, db)
    | .error .expiredToken => (.err 401 .expiredToken, db)
    | .ok decoded =>
      match findUser db decoded.userId with
      | none => (.err 401 .userNotFound, db)
      | some u =>
        if u.subscriptionStatus ≠ "ACTIVE" then (.err 403 .accountInactive, db)
        else (.ok u.view, updateLastLogin db u.id now)

/-- Result of `optionalAuthMiddleware`: the request always proceeds, possibly
with an identity attached; the `err` constructor exists so that the theorem
"no error response is ever produced" is expressible. -/
inductive OptAuthResult where
  | proceed (user : Option UserView)
  | err (status : Nat) (kind : ErrKind)
deriving DecidableEq, Repr

/-- `optionalAuthMiddleware` from `auth.ts`: a missing header continues
anonymously; any `jwt.verify` exception is swallowed by the `catch` and the
request continues anonymously; `req.user` is attached only when the token
verifies and the live user row exists with an ACTIVE status. -/
def optionalAuthMiddleware (cfg : JwtConfig) (db : DB)
    (authHeader : Option Token) (now : Nat) : OptAuthResult × DB :=
  match authHeader with
  | none => (.proceed none, db)
  | some tok =>
    match jwtVerify tok cfg.secret now with
    | .error _ => (.proceed none, db)
    | .ok decoded =>
      match findUser db decoded.userId with
      | none => (.proceed none, db)
      | some u =>
        if u.subscriptionStatus == "ACTIVE" then (.proceed (some u.view), db)
        else (.proceed none, db)

/-- The hard-coded session lifetime `7 * 24 * 60 * 60 * 1000` used at every
`prisma.userSession.create`/`update` in the auth routes. -/
def sevenDaysMs : Nat := 7 * 24 * 60 * 60 * 1000

/-- `generateTokens` from the auth routes: sign the identity payload with the
access secret (`expiresIn: config.jwt.expiresIn`) and with the refresh secret
(`expiresIn: config.jwt.refreshExpiresIn`); `jwt.sign` stamps `iat := now`. -/
def generateTokens (cfg : JwtConfig) (u : User) (now : Nat) : Token × Token :=
  (Token.signed cfg.secret
    ⟨u.id, u.email, u.role, u.subscriptionPlan, u.subscriptionStatus,
      now, now + cfg.expiresIn⟩,
   Token.signed cfg.refreshSecret
    ⟨u.id, u.email, u.role, u.subscriptionPlan, u.subscriptionStatus,
      now, now + cfg.refreshExpiresIn⟩)

/-- Ideal model of `bcrypt.hash`: injective, so `bcrypt.compare` succeeds
exactly on the hashed password. -/
def bcryptHash (password : String) : String :=
  "bcrypt$" ++ password

/-- `verifyPassword` from the auth routes (`bcrypt.compare`). -/
def verifyPassword (password hash : String) : Bool :=
  bcryptHash password == hash

/-- Result of the route handlers: a success (`register`/`login`/`refresh`
return a token pair, `logout`/`change-password` a plain message), or an error
response with an HTTP status. -/
inductive HandlerResult where
  | ok
  | okTokens (accessToken refreshToken : Token)
  | err (status : Nat) (kind : ErrKind)
deriving DecidableEq, Repr

/-- The `findFirst` of the refresh handler:
`prisma.userSession.findFirst({ where: { refreshToken, isActive: true,
expiresAt: { gt: new Date() } } })`. -/
def findActiveSessionByRefresh (db : DB) (rt : Token) (now : Nat) :
    Option UserSession :=
  db.sessions.find? (fun s =>
    s.refreshToken == rt && s.isActive && decide (now < s.expiresAt))

/-- The `update` of the refresh handler: replace token, refresh token and
expiry of the row whose `id` matches — unconditionally on the current
fingerprint. -/
def updateSessionTokens (db : DB) (sid : Nat) (access refresh : Token)
    (newExpiry : Nat) : DB :=
  { db with sessions := db.sessions.map (fun s =>
      if s.id == sid then
        { s with token := access, refreshToken := refresh,
                 expiresAt := newExpiry }
      else s) }

/-- Second half of the refresh handler, after the session row has been read:
401 when no session was found, check the live user (the `include` of the
`findFirst`; a dangling `userId` would surface as an unclassified 500),
403 when the account is not ACTIVE, otherwise mint a new pair and overwrite
the session row keyed only on its `id`. -/
def rotateFinish (cfg : JwtConfig) (db : DB) (found : Option UserSession)
    (now : Nat) : HandlerResult × DB :=
  match found with
  | none => (.err 401 .invalidRefreshToken, db)
  | some s =>
    match findUser db s.userId with
    | none => (.err 500 .internalError, db)
    | some u =>
      if u.subscriptionStatus ≠ "ACTIVE" then (.err 403 .accountInactive, db)
      else
        let pair := generateTokens cfg u now
        (.okTokens pair.1 pair.2,
         updateSessionTokens db s.id pair.1 pair.2 (now + sevenDaysMs))

/-- `POST /refresh`: 400 when the body carries no token; `jwt.verify` against
the refresh secret (both `JsonWebTokenError` and its subclass
`TokenExpiredError` are caught and answered with 401 INVALID_REFRESH_TOKEN);
then read the active session row and finish the rotation. -/
def refreshHandler (cfg : JwtConfig) (db : DB) (body : Option Token)
    (now : Nat) : HandlerResult × DB :=
  match body with
  | none => (.err 400 .missingRefreshToken, db)
  | some rt =>
    match jwtVerify rt cfg.refreshSecret now with
    | .error _ => (.err 401 .invalidRefreshToken, db)
    | .ok _ => rotateFinish cfg db (findActiveSessionByRefresh db rt now) now

/-- The `prisma.userSession.create` shared by register, login and refresh:
`expiresAt: new Date(Date.now() + 7 * 24 * 60 * 60 * 1000)`. -/
def createSession (db : DB) (uid : String) (access refresh : Token)
    (now : Nat) : DB :=
  { db with
      sessions := db.sessions ++
        [⟨db.nextSessionId, uid, access, refresh, now + sevenDaysMs, true⟩],
      nextSessionId := db.nextSessionId + 1 }

/-- `POST /register`: validation verdict (external `express-validator`), 409
on an existing email, create the user (role USER, plan BASIC, status ACTIVE),
mint tokens, persist the session.  `newUserId` is the row id generated by the
database. -/
def registerHandler (cfg : JwtConfig) (db : DB) (validationOk : Bool)
    (email password firstName lastName : String) (newUserId : String)
    (now : Nat) : HandlerResult × DB :=
  if !validationOk then (.err 400 .validationError, db)
  else
    match findUserByEmail db email with
    | some _ => (.err 409 .userExists, db)
    | none =>
      let u : User :=
        ⟨newUserId, email, bcryptHash password, firstName, lastName,
          "USER", "BASIC", "ACTIVE", none⟩
      let pair := generateTokens cfg u now
      let db1 : DB := { db with users := db.users ++ [u] }
      (.okTokens pair.1 pair.2, createSession db1 u.id pair.1 pair.2 now)

/-- `POST /login`: validation verdict, find the user by email (401 on an
unknown email), `bcrypt.compare` (401 on a wrong password), 403 unless the
account is ACTIVE, then mint tokens, persist the session and update
`lastLogin`. -/
def loginHandler (cfg : JwtConfig) (db : DB) (validationOk : Bool)
    (email password : String) (now : Nat) : HandlerResult × DB :=
  if !validationOk then (.err 400 .validationError, db)
  else
    match findUserByEmail db email with
    | none => (.err 401 .invalidCredentials, db)
    | some u =>
      if !verifyPassword password u.passwordHash then
        (.err 401 .invalidCredentials, db)
      else if u.subscriptionStatus ≠ "ACTIVE" then
        (.err 403 .accountInactive, db)
      else
        let pair := generateTokens cfg u now
        (.okTokens pair.1 pair.2,
         updateLastLogin (createSession db u.id pair.1 pair.2 now) u.id now)

/-- Body of `POST /logout` after `authMiddleware`:
`prisma.userSession.updateMany({ where: { token, userId }, data:
{ isActive: false } })`. -/
def logoutBody (db : DB) (uid : String) (tk : Token) : DB :=
  { db with sessions := db.sessions.map (fun s =>
      if s.token == tk && s.userId == uid then { s with isActive := false }
      else s) }

/-- `POST /logout` end to end: `authMiddleware` gate, then deactivate the
session rows matching the caller's bearer token; always answers 200 once
authenticated. -/
def logoutEndpoint (cfg : JwtConfig) (db : DB) (authHeader : Option Token)
    (now : Nat) : HandlerResult × DB :=
  match authHeader with
  | none => (.err 401 .missingToken, db)
  | some tk =>
    match authMiddleware cfg db (some tk) now with
    | (.err s k, db1) => (.err s k, db1)
    | (.ok uv, db1) => (.ok, logoutBody db1 uv.id tk)

/-- `prisma.user.update({ where: { id }, data: { passwordHash } })`. -/
def updatePasswordHash (db : DB) (uid : String) (newHash : String) : DB :=
  { db with users := db.users.map (fun u =>
      if u.id == uid then { u with passwordHash := newHash } else u) }

/-- The `updateMany` of the change-password handler: deactivate every active
session of the user whose stored access token differs from the caller's
current one. -/
def deactivateOtherSessions (db : DB) (uid : String) (currentToken : Token) :
    DB :=
  { db with sessions := db.sessions.map (fun s =>
      if s.userId == uid && s.isActive && s.token != currentToken then
        { s with isActive := false }
      else s) }

/-- Body of `POST /change-password` after `authMiddleware`: validation
verdict, re-read the user (404 if gone), check the current password (400 on a
mismatch), store the new hash, then deactivate all other active sessions. -/
def changePasswordBody (db : DB) (uid : String) (currentToken : Token)
    (validationOk : Bool) (currentPassword newPassword : String) :
    HandlerResult × DB :=
  if !validationOk then (.err 400 .validationError, db)
  else
    match findUser db uid with
    | none => (.err 404 .userNotFound, db)
    | some u =>
      if !verifyPassword currentPassword u.passwordHash then
        (.err 400 .invalidCurrentPassword, db)
      else
        (.ok,
         deactivateOtherSessions
           (updatePasswordHash db uid (bcryptHash newPassword))
           uid currentToken)

/-- `POST /change-password` end to end: `authMiddleware` gate, then the
handler body with the caller's bearer token as the preserved session key. -/
def changePasswordEndpoint (cfg : JwtConfig) (db : DB)
    (authHeader : Option Token) (now : Nat) (validationOk : Bool)
    (currentPassword newPassword : String) : HandlerResult × DB :=
  match authHeader with
  | none => (.err 401 .missingToken, db)
  | some tk =>
    match authMiddleware cfg db (some tk) now with
    | (.err s k, db1) => (.err s k, db1)
    | (.ok uv, db1) =>
      changePasswordBody db1 uv.id tk validationOk currentPassword newPassword

/-- One identity's entry in the `userRequests` map of `userRateLimit`. -/
structure RateEntry where
  count : Nat
  resetTime : Nat
deriving DecidableEq, Repr

/-- Outcome of one pass through the `userRateLimit` middleware: the request
proceeds, or a response with an HTTP status and a `retryAfter` (in seconds)
is sent. -/
inductive RateOutcome where
  | pass
  | limited (status : Nat) (retryAfter : Nat)
deriving DecidableEq, Repr

/-- One request through `userRateLimit(maxRequests, windowMs)` for a fixed
authenticated identity: no entry or a lapsed window (`now > resetTime`)
re-initializes the counter at 1 and passes; a saturated counter answers 429
with `retryAfter = Math.ceil((resetTime - now) / 1000)` and leaves the entry
unchanged; otherwise the counter is incremented and the request passes. -/
def userRateLimitStep (maxRequests windowMs : Nat) (st : Option RateEntry)
    (now : Nat) : RateOutcome × Option RateEntry :=
  match st with
  | none => (.pass, some ⟨1, now + windowMs⟩)
  | some e =>
    if e.resetTime < now then (.pass, some ⟨1, now + windowMs⟩)
    else if maxRequests ≤ e.count then
      (.limited 429 ((e.resetTime - now + 999) / 1000), some e)
    else (.pass, some { e with count := e.count + 1 })

/-- Run a sequence of requests (given by their timestamps) through
`userRateLimit` for one identity, collecting the outcomes. -/
def runRateLimit (maxRequests windowMs : Nat) (st : Option RateEntry) :
    List Nat → List RateOutcome × Option RateEntry
  | [] => ([], st)
  | t :: ts =>
    let step := userRateLimitStep maxRequests windowMs st t
    let rest := runRateLimit maxRequests windowMs step.2 ts
    (step.1 :: rest.1, rest.2)

/-- Does a handler result denote a successful response? -/
def HandlerResult.isSuccess : HandlerResult → Bool
  | .ok => true
  | .okTokens _ _ => true
  | .err _ _ => false

/-! ### Concrete fixtures used by witnesses and counterexamples -/

/-- A concrete configuration: two distinct secrets, 1 h access lifetime,
7 d refresh lifetime (in ms). -/
def cfg0 : JwtConfig :=
  ⟨"access-secret-0123456789abcdefghijklmnop",
   "refresh-secret-0123456789abcdefghijklmno",
   3600000, 604800000⟩

/-- Payload of the fixture user's token pair, issued at time 0. -/
def payload0 : JWTPayload :=
  ⟨"u1", "a@x.com", "USER", "BASIC", "ACTIVE", 0, 604800000⟩

/-- Fixture access token. -/
def at0 : Token := .signed cfg0.secret payload0

/-- Fixture refresh token. -/
def rt0 : Token := .signed cfg0.refreshSecret payload0

/-- Fixture active user. -/
def user0 : User :=
  ⟨"u1", "a@x.com", bcryptHash "Aa1!aaaa", "Ann", "Lee",
   "USER", "BASIC", "ACTIVE", none⟩

/-- Fixture active session owned by `user0`. -/
def session0 : UserSession := ⟨0, "u1", at0, rt0, 604800000, true⟩

/-- Fixture store: one active user with one active session. -/
def db0 : DB := ⟨[user0], [session0], 1⟩

/-- A suspended user. -/
def userSusp : User :=
  ⟨"u2", "b@x.com", bcryptHash "Bb2!bbbb", "Bob", "Roe",
   "USER", "BASIC", "SUSPENDED", none⟩

/-- Payload naming the suspended user, issued at 0, long-lived. -/
def payloadSusp : JWTPayload :=
  ⟨"u2", "b@x.com", "USER", "BASIC", "SUSPENDED", 0, 604800000⟩

/-- Payload naming the suspended user but already expired at time 10. -/
def payloadSuspExpired : JWTPayload :=
  ⟨"u2", "b@x.com", "USER", "BASIC", "SUSPENDED", 0, 5⟩

/-- Store holding only the suspended user. -/
def dbSusp : DB := ⟨[userSusp], [], 0⟩

/-- An empty store. -/
def dbEmpty : DB := ⟨[], [], 0⟩

/-! ### Claims -/

/-- **C1.** The claim states that two concurrent rotate calls on the same
still-valid refresh token cannot both succeed because the session update is
an atomic conditional replace keyed on the active refresh fingerprint.  The
source instead performs `findFirst` followed by `update({ where: { id } })`
— a read-then-write sequence whose write is keyed only on the row id.  This
theorem exhibits the lost-update interleaving read₁, read₂, write₁, write₂
from a state with a single active session: both reads find the session, and
both writes then succeed, so both rotate calls return fresh token pairs. -/
theorem c1_rotate_race_both_succeed :
    jwtVerify rt0 cfg0.refreshSecret 1000 = .ok payload0 ∧
    findActiveSessionByRefresh db0 rt0 1000 = some session0 ∧
    (rotateFinish cfg0 db0 (some session0) 1000).1.isSuccess = true ∧
    (rotateFinish cfg0 (rotateFinish cfg0 db0 (some session0) 1000).2
      (some session0) 1000).1.isSuccess = true :=
  ⟨rfl, by decide, by decide, by decide⟩

/-- **C3 counterexample.** The claim says every verification attempt against
a non-ACTIVE account fails with AccountInactive (403) "regardless of whether
the presented token is valid, malformed, or expired".  On the source,
`jwt.verify` runs before the account is even read, so an expired token
belonging to the suspended account `u2` is answered with 401 (expired
token), not 403 AccountInactive. -/
theorem c3_counterexample :
    (authMiddleware cfg0 dbSusp
        (some (.signed cfg0.secret payloadSuspExpired)) 10).1 =
      .err 401 .expiredToken ∧
    (authMiddleware cfg0 dbSusp
        (some (.signed cfg0.secret payloadSuspExpired)) 10).1 ≠
      .err 403 .accountInactive := by
  decide

/-- **C3 (amended).** For a well-formed, correctly signed and unexpired
access token naming an account whose status is not ACTIVE, verification
fails with AccountInactive (HTTP 403); malformed or expired tokens instead
fail earlier with 401, before the status check. -/
theorem c3_inactive_account_rejected (cfg : JwtConfig) (db : DB)
    (p : JWTPayload) (u : User) (now : Nat)
    (hexp : now < p.exp)
    (hu : findUser db p.userId = some u)
    (hstat : u.subscriptionStatus ≠ "ACTIVE") :
    (authMiddleware cfg db (some (.signed cfg.secret p)) now).1 =
      .err 403 .accountInactive := by
  simp [authMiddleware, jwtVerify, Nat.not_le.mpr hexp, hu, hstat]

/-- Witness for `c3_inactive_account_rejected` at a concrete input. -/
theorem c3_inactive_account_rejected_witness :
    (10 < payloadSusp.exp) ∧
    (findUser dbSusp payloadSusp.userId = some userSusp) ∧
    (userSusp.subscriptionStatus ≠ "ACTIVE") ∧
    (authMiddleware cfg0 dbSusp (some (.signed cfg0.secret payloadSusp)) 10).1 =
      .err 403 .accountInactive :=
  ⟨by decide, by decide, by decide,
   c3_inactive_account_rejected cfg0 dbSusp payloadSusp userSusp 10
     (by decide) (by decide) (by decide)⟩

/-- Successful run of `authMiddleware`: a correctly signed unexpired token
naming a live ACTIVE user attaches the live record's projection and updates
`lastLogin`. -/
theorem authMiddleware_ok (cfg : JwtConfig) (db : DB) (p : JWTPayload)
    (u : User) (now : Nat)
    (hexp : now < p.exp)
    (hu : findUser db p.userId = some u)
    (hact : u.subscriptionStatus = "ACTIVE") :
    authMiddleware cfg db (some (.signed cfg.secret p)) now =
      (.ok u.view, updateLastLogin db u.id now) := by
  simp [authMiddleware, jwtVerify, Nat.not_le.mpr hexp, hu, hact]

/-- A user found by id has that id. -/
theorem findUser_some_id {db : DB} {x : String} {u : User}
    (h : findUser db x = some u) : u.id = x := by
  have := List.find?_some h
  simpa using this

/-- A user found by id is a row of the user table. -/
theorem findUser_some_mem {db : DB} {x : String} {u : User}
    (h : findUser db x = some u) : u ∈ db.users :=
  List.mem_of_find?_eq_some h

/-- `findUser` after `updateLastLogin`: the lookup returns the updated row. -/
theorem findUser_updateLastLogin (db : DB) (uid x : String) (now : Nat) :
    findUser (updateLastLogin db uid now) x =
      (findUser db x).map (fun u =>
        if u.id == uid then { u with lastLogin := some now } else u) := by
  unfold findUser updateLastLogin
  rw [List.find?_map]
  have hpred : ((fun u : User => u.id == x) ∘ fun u : User =>
      if u.id == uid then { u with lastLogin := some now } else u) =
      (fun u : User => u.id == x) := by
    funext u
    by_cases h : u.id == uid <;> simp [h, Function.comp]
  rw [hpred]

/-- **C4.** The identity attached by `authMiddleware` is read from the live
account record, never from the token payload: two valid access tokens naming
the same account id — however much their role/plan/status/email claims
differ — produce identical middleware results (same attached identity, same
store update). -/
theorem c4_identity_from_live_record (cfg : JwtConfig) (db : DB)
    (p q : JWTPayload) (now : Nat)
    (hid : p.userId = q.userId)
    (hp : now < p.exp) (hq : now < q.exp) :
    authMiddleware cfg db (some (.signed cfg.secret p)) now =
      authMiddleware cfg db (some (.signed cfg.secret q)) now := by
  simp [authMiddleware, jwtVerify, Nat.not_le.mpr hp, Nat.not_le.mpr hq, hid]

/-- A token for `u1` whose role/plan/email claims disagree with the live
record (as if the account had been downgraded mid-token-lifetime). -/
def payloadElevated : JWTPayload :=
  ⟨"u1", "evil@x.com", "SUPER_ADMIN", "ENTERPRISE", "ACTIVE", 0, 604800000⟩

/-- Witness for `c4_identity_from_live_record`: a token claiming
SUPER_ADMIN/ENTERPRISE and the honest token verify to the same identity. -/
theorem c4_identity_from_live_record_witness :
    (payload0.userId = payloadElevated.userId) ∧
    (10 < payload0.exp) ∧ (10 < payloadElevated.exp) ∧
    authMiddleware cfg0 db0 (some (.signed cfg0.secret payload0)) 10 =
      authMiddleware cfg0 db0 (some (.signed cfg0.secret payloadElevated)) 10 :=
  ⟨rfl, by decide, by decide,
   c4_identity_from_live_record cfg0 db0 payload0 payloadElevated 10
     rfl (by decide) (by decide)⟩

/-- **C6.** Rate limiter with `max_requests = 5`, `window = 60 s`: six
requests by one identity, all within the window opened by the first request,
produce five passes and a sixth failure with HTTP 429 whose reported
`retryAfter` is the remaining window time in seconds, at most 60. -/
theorem c6_rate_limit_five_then_429 (t1 t2 t3 t4 t5 t6 : Nat)
    (h2 : t2 ≤ t1 + 60000) (h3 : t3 ≤ t1 + 60000) (h4 : t4 ≤ t1 + 60000)
    (h5 : t5 ≤ t1 + 60000) (h6 : t6 ≤ t1 + 60000) (h16 : t1 ≤ t6) :
    (runRateLimit 5 60000 none [t1, t2, t3, t4, t5, t6]).1 =
      [.pass, .pass, .pass, .pass, .pass,
       .limited 429 ((t1 + 60000 - t6 + 999) / 1000)] ∧
    (t1 + 60000 - t6 + 999) / 1000 ≤ 60 := by
  constructor
  · simp [runRateLimit, userRateLimitStep, Nat.not_lt.mpr h2,
      Nat.not_lt.mpr h3, Nat.not_lt.mpr h4, Nat.not_lt.mpr h5,
      Nat.not_lt.mpr h6]
  · omega

/-- Witness for `c6_rate_limit_five_then_429` at concrete timestamps. -/
theorem c6_rate_limit_five_then_429_witness :
    (runRateLimit 5 60000 none [0, 10, 20, 30, 40, 50]).1 =
      [.pass, .pass, .pass, .pass, .pass,
       .limited 429 ((0 + 60000 - 50 + 999) / 1000)] ∧
    (0 + 60000 - 50 + 999) / 1000 ≤ 60 :=
  c6_rate_limit_five_then_429 0 10 20 30 40 50 (by decide) (by decide)
    (by decide) (by decide) (by decide) (by decide)

/-- The status map from the claim: the listed failure kinds must carry the
listed HTTP statuses; kinds the claim does not constrain are unrestricted. -/
def kindStatusOk (s : Nat) (k : ErrKind) : Bool :=
  match k with
  | .missingToken => s == 401
  | .malformedToken => s == 401
  | .expiredToken => s == 401
  | .invalidRefreshToken => s == 401
  | .accountInactive => s == 403
  | .internalError => s == 500
  | _ => true

/-- Status-mapping check for `authMiddleware` outcomes. -/
def authStatusOk : AuthResult → Bool
  | .ok _ => true
  | .err s k => kindStatusOk s k

/-- Status-mapping check for route-handler outcomes. -/
def handlerStatusOk : HandlerResult → Bool
  | .err s k => kindStatusOk s k
  | _ => true

/-- Status-mapping check for rate-limiter outcomes: a trip is 429. -/
def rateStatusOk : RateOutcome → Bool
  | .pass => true
  | .limited s _ => s == 429

/-- Every outcome of `authMiddleware` satisfies the claimed status map. -/
theorem authMiddleware_statusOk (cfg : JwtConfig) (db : DB)
    (hdr : Option Token) (now : Nat) :
    authStatusOk (authMiddleware cfg db hdr now).1 = true := by
  cases hdr with
  | none => rfl
  | some tok =>
    cases hv : jwtVerify tok cfg.secret now with
    | error e =>
      cases e <;> simp [authMiddleware, hv, authStatusOk, kindStatusOk]
    | ok d =>
      cases hu : findUser db d.userId with
      | none => simp [authMiddleware, hv, hu, authStatusOk, kindStatusOk]
      | some u =>
        by_cases hs : u.subscriptionStatus = "ACTIVE" <;>
          simp [authMiddleware, hv, hu, hs, authStatusOk, kindStatusOk]

/-- **C8.** Every failure leaving the subsystem carries the specified HTTP
status: missing, malformed or expired access tokens and invalid refresh
tokens are 401; an inactive account is 403; a tripped rate limit is 429; an
unclassified failure is 500 — over all inputs of `authMiddleware`, the
refresh/register/login/logout/change-password handlers, and the per-user
rate limiter. -/
theorem c8_status_mapping (cfg : JwtConfig) (db : DB) (hdr body : Option Token)
    (now m w t : Nat) (st : Option RateEntry) (valOk : Bool)
    (email pw fn ln nid curPw newPw : String) :
    authStatusOk (authMiddleware cfg db hdr now).1 = true ∧
    handlerStatusOk (refreshHandler cfg db body now).1 = true ∧
    handlerStatusOk (registerHandler cfg db valOk email pw fn ln nid now).1 = true ∧
    handlerStatusOk (loginHandler cfg db valOk email pw now).1 = true ∧
    handlerStatusOk (logoutEndpoint cfg db hdr now).1 = true ∧
    handlerStatusOk (changePasswordEndpoint cfg db hdr now valOk curPw newPw).1 = true ∧
    rateStatusOk (userRateLimitStep m w st t).1 = true := by
  refine ⟨authMiddleware_statusOk cfg db hdr now, ?_, ?_, ?_, ?_, ?_, ?_⟩
  · cases body with
    | none => rfl
    | some rt =>
      cases hv : jwtVerify rt cfg.refreshSecret now with
      | error e => simp [refreshHandler, hv, handlerStatusOk, kindStatusOk]
      | ok d =>
        cases hf : findActiveSessionByRefresh db rt now with
        | none =>
          simp [refreshHandler, rotateFinish, hv, hf, handlerStatusOk,
            kindStatusOk]
        | some s =>
          cases hu : findUser db s.userId with
          | none =>
            simp [refreshHandler, rotateFinish, hv, hf, hu, handlerStatusOk,
              kindStatusOk]
          | some u =>
            by_cases hs : u.subscriptionStatus = "ACTIVE" <;>
              simp [refreshHandler, rotateFinish, hv, hf, hu, hs,
                handlerStatusOk, kindStatusOk]
  · cases valOk with
    | false => rfl
    | true =>
      cases he : findUserByEmail db email <;>
        simp [registerHandler, he, handlerStatusOk, kindStatusOk]
  · cases valOk with
    | false => rfl
    | true =>
      cases he : findUserByEmail db email with
      | none => simp [loginHandler, he, handlerStatusOk, kindStatusOk]
      | some u =>
        cases hvp : verifyPassword pw u.passwordHash with
        | false => simp [loginHandler, he, hvp, handlerStatusOk, kindStatusOk]
        | true =>
          by_cases hs : u.subscriptionStatus = "ACTIVE" <;>
            simp [loginHandler, he, hvp, hs, handlerStatusOk, kindStatusOk]
  · cases hdr with
    | none => rfl
    | some tk =>
      rcases ha : authMiddleware cfg db (some tk) now with ⟨r, db1⟩
      cases r with
      | ok uv => simp [logoutEndpoint, ha, handlerStatusOk]
      | err s k =>
        have := authMiddleware_statusOk cfg db (some tk) now
        rw [ha] at this
        simpa [logoutEndpoint, ha, handlerStatusOk, authStatusOk] using this
  · cases hdr with
    | none => rfl
    | some tk =>
      rcases ha : authMiddleware cfg db (some tk) now with ⟨r, db1⟩
      cases r with
      | err s k =>
        have := authMiddleware_statusOk cfg db (some tk) now
        rw [ha] at this
        simpa [changePasswordEndpoint, ha, handlerStatusOk, authStatusOk]
          using this
      | ok uv =>
        cases valOk with
        | false => simp [changePasswordEndpoint, ha, changePasswordBody,
            handlerStatusOk, kindStatusOk]
        | true =>
          cases hu : findUser db1 uv.id with
          | none => simp [changePasswordEndpoint, ha, changePasswordBody, hu,
              handlerStatusOk, kindStatusOk]
          | some u =>
            cases hvp : verifyPassword curPw u.passwordHash <;>
              simp [changePasswordEndpoint, ha, changePasswordBody, hu, hvp,
                handlerStatusOk, kindStatusOk]
  · cases st with
    | none => rfl
    | some e =>
      by_cases h1 : e.resetTime < t
      · simp [userRateLimitStep, h1, rateStatusOk]
      · by_cases h2 : m ≤ e.count <;>
          simp [userRateLimitStep, h1, h2, rateStatusOk]

/-- **C9.** `optionalAuthMiddleware` never produces an error response: for
every input the request proceeds, anonymously unless — and an identity is
attached exactly when — the header is present, the token verifies against
the access secret, and the live account exists with status ACTIVE; the
attached identity is the live record's projection. -/
theorem c9_optional_auth_never_errors (cfg : JwtConfig) (db : DB)
    (hdr : Option Token) (now : Nat) :
    (∃ mu, (optionalAuthMiddleware cfg db hdr now).1 = .proceed mu) ∧
    (∀ uv, (optionalAuthMiddleware cfg db hdr now).1 = .proceed (some uv) →
      ∃ tok p u, hdr = some tok ∧ jwtVerify tok cfg.secret now = .ok p ∧
        findUser db p.userId = some u ∧ u.subscriptionStatus = "ACTIVE" ∧
        uv = u.view) ∧
    (∀ tok p u, hdr = some tok → jwtVerify tok cfg.secret now = .ok p →
      findUser db p.userId = some u → u.subscriptionStatus = "ACTIVE" →
      (optionalAuthMiddleware cfg db hdr now).1 = .proceed (some u.view)) := by
  cases hdr with
  | none =>
    refine ⟨⟨none, rfl⟩, ?_, ?_⟩
    · intro uv h
      simp [optionalAuthMiddleware] at h
    · intro tok p u h
      exact absurd h (by simp)
  | some tok =>
    cases hv : jwtVerify tok cfg.secret now with
    | error e =>
      refine ⟨⟨none, by simp [optionalAuthMiddleware, hv]⟩, ?_, ?_⟩
      · intro uv h
        simp [optionalAuthMiddleware, hv] at h
      · intro tok' p u htok hv' hu hs
        rw [Option.some_inj] at htok
        subst htok
        rw [hv] at hv'
        exact absurd hv' (by simp)
    | ok d =>
      cases hu : findUser db d.userId with
      | none =>
        refine ⟨⟨none, by simp [optionalAuthMiddleware, hv, hu]⟩, ?_, ?_⟩
        · intro uv h
          simp [optionalAuthMiddleware, hv, hu] at h
        · intro tok' p u htok hv' hu' hs
          rw [Option.some_inj] at htok
          subst htok
          rw [hv] at hv'
          cases hv'
          rw [hu] at hu'
          exact absurd hu' (by simp)
      | some u =>
        by_cases hs : u.subscriptionStatus = "ACTIVE"
        · refine ⟨⟨some u.view, by simp [optionalAuthMiddleware, hv, hu, hs]⟩,
            ?_, ?_⟩
          · intro uv h
            refine ⟨tok, d, u, rfl, hv, hu, hs, ?_⟩
            simp [optionalAuthMiddleware, hv, hu, hs] at h
            exact h.symm
          · intro tok' p u' htok hv' hu' hs'
            rw [Option.some_inj] at htok
            subst htok
            rw [hv] at hv'
            cases hv'
            rw [hu] at hu'
            rw [Option.some_inj] at hu'
            subst hu'
            simp [optionalAuthMiddleware, hv, hu, hs]
        · refine ⟨⟨none, by simp [optionalAuthMiddleware, hv, hu, hs]⟩, ?_, ?_⟩
          · intro uv h
            simp [optionalAuthMiddleware, hv, hu, hs] at h
          · intro tok' p u' htok hv' hu' hs'
            rw [Option.some_inj] at htok
            subst htok
            rw [hv] at hv'
            cases hv'
            rw [hu] at hu'
            rw [Option.some_inj] at hu'
            subst hu'
            exact absurd hs' hs

/-- Witness for `c9_optional_auth_never_errors`: on the fixture store a valid
token attaches the live identity, and the result is a `proceed`. -/
theorem c9_optional_auth_never_errors_witness :
    (∃ mu, (optionalAuthMiddleware cfg0 db0 (some at0) 10).1 = .proceed mu) ∧
    (optionalAuthMiddleware cfg0 db0 (some at0) 10).1 =
      .proceed (some user0.view) :=
  ⟨(c9_optional_auth_never_errors cfg0 db0 (some at0) 10).1,
   (c9_optional_auth_never_errors cfg0 db0 (some at0) 10).2.2
     at0 payload0 user0 rfl (by rfl) (by decide) (by decide)⟩

/-- **C10.** Every session row written by register, login or refresh has
`expiresAt` exactly 7 days (604800000 ms) after the write — a hard-coded
constant: the statement holds for every configuration, in particular for
every value of `JWT_REFRESH_EXPIRES_IN` (`cfg.refreshExpiresIn`). -/
theorem c10_session_expiry_hardcoded_7d (cfg : JwtConfig) (db : DB)
    (valOk : Bool) (email pw fn ln nid : String) (body : Option Token)
    (now : Nat) :
    (∀ s ∈ (registerHandler cfg db valOk email pw fn ln nid now).2.sessions,
        s ∉ db.sessions → s.expiresAt = now + 604800000) ∧
    (∀ s ∈ (loginHandler cfg db valOk email pw now).2.sessions,
        s ∉ db.sessions → s.expiresAt = now + 604800000) ∧
    (∀ s ∈ (refreshHandler cfg db body now).2.sessions,
        s ∉ db.sessions → s.expiresAt = now + 604800000) := by
  refine ⟨?_, ?_, ?_⟩
  · intro s hs hnot
    cases valOk with
    | false => exact absurd hs hnot
    | true =>
      cases he : findUserByEmail db email with
      | some u =>
        simp only [registerHandler, he] at hs
        exact absurd hs hnot
      | none =>
        simp only [registerHandler, he, createSession, Bool.not_true,
          Bool.false_eq_true, if_false, List.mem_append, List.mem_singleton] at hs
        rcases hs with hs | hs
        · exact absurd hs hnot
        · subst hs
          norm_num [sevenDaysMs]
  · intro s hs hnot
    cases valOk with
    | false => exact absurd hs hnot
    | true =>
      cases he : findUserByEmail db email with
      | none =>
        simp only [loginHandler, he] at hs
        exact absurd hs hnot
      | some u =>
        cases hvp : verifyPassword pw u.passwordHash with
        | false =>
          simp only [loginHandler, he, hvp] at hs
          exact absurd hs hnot
        | true =>
          by_cases hst : u.subscriptionStatus = "ACTIVE"
          · simp [loginHandler, he, hvp, hst, updateLastLogin,
              createSession] at hs
            rcases hs with hs | hs
            · exact absurd hs hnot
            · subst hs
              norm_num [sevenDaysMs]
          · simp [loginHandler, he, hvp, hst] at hs
            exact absurd hs hnot
  · intro s hs hnot
    cases body with
    | none => exact absurd hs hnot
    | some rt =>
      cases hv : jwtVerify rt cfg.refreshSecret now with
      | error e =>
        simp only [refreshHandler, hv] at hs
        exact absurd hs hnot
      | ok d =>
        cases hf : findActiveSessionByRefresh db rt now with
        | none =>
          simp only [refreshHandler, rotateFinish, hv, hf] at hs
          exact absurd hs hnot
        | some s0 =>
          cases hu : findUser db s0.userId with
          | none =>
            simp only [refreshHandler, rotateFinish, hv, hf, hu] at hs
            exact absurd hs hnot
          | some u =>
            by_cases hst : u.subscriptionStatus = "ACTIVE"
            · simp [refreshHandler, rotateFinish, hv, hf, hu, hst,
                updateSessionTokens] at hs
              rcases hs with ⟨x, hx, rfl⟩
              by_cases hid : x.id = s0.id
              · simp [hid, sevenDaysMs]
              · simp [hid] at hnot ⊢
                exact absurd hx hnot
            · simp [refreshHandler, rotateFinish, hv, hf, hu, hst] at hs
              exact absurd hs hnot

/-- The user row created by the witness run of the register handler. -/
def regUser0 : User :=
  ⟨"u9", "new@x.com", bcryptHash "Aa1!aaaa", "Ann", "Lee",
   "USER", "BASIC", "ACTIVE", none⟩

/-- The session row created by the witness run of the register handler. -/
def regSession0 : UserSession :=
  ⟨0, "u9", (generateTokens cfg0 regUser0 0).1, (generateTokens cfg0 regUser0 0).2,
   604800000, true⟩

/-- Witness for `c10_session_expiry_hardcoded_7d`: the session written by a
concrete register call expires exactly 7 days after the write. -/
theorem c10_session_expiry_hardcoded_7d_witness :
    regSession0 ∈ (registerHandler cfg0 dbEmpty true "new@x.com" "Aa1!aaaa"
      "Ann" "Lee" "u9" 0).2.sessions ∧
    regSession0 ∉ dbEmpty.sessions ∧
    regSession0.expiresAt = 0 + 604800000 :=
  ⟨by decide, by decide,
   (c10_session_expiry_hardcoded_7d cfg0 dbEmpty true "new@x.com" "Aa1!aaaa"
      "Ann" "Lee" "u9" none 0).1 regSession0 (by decide) (by decide)⟩

/-- Deactivating the sessions matching a token and owner is idempotent on
the session table. -/
theorem deactivate_idem (uid : String) (tk : Token) (l : List UserSession) :
    (l.map (fun s => if s.token == tk && s.userId == uid then
        { s with isActive := false } else s)).map
      (fun s => if s.token == tk && s.userId == uid then
        { s with isActive := false } else s) =
    l.map (fun s => if s.token == tk && s.userId == uid then
        { s with isActive := false } else s) := by
  induction l with
  | nil => rfl
  | cons x l ih =>
    simp only [List.map_cons]
    refine congrArg₂ List.cons ?_ ?_
    · by_cases hc : (x.token == tk && x.userId == uid) = true
      · simp [hc]
      · simp [hc]
    · exact ih

/-- **C7.** Logout (session revocation) is idempotent: once authenticated,
the first call answers 200 and leaves every session matching the caller's
token inactive; a second call with the same token also answers 200 and
leaves the session table exactly as the first call did, so the session stays
permanently inactive. -/
theorem c7_logout_idempotent (cfg : JwtConfig) (db : DB) (p : JWTPayload)
    (u : User) (tk : Token) (now1 now2 : Nat)
    (htk : tk = .signed cfg.secret p)
    (h1 : now1 < p.exp) (h2 : now2 < p.exp)
    (hu : findUser db p.userId = some u)
    (hact : u.subscriptionStatus = "ACTIVE") :
    (logoutEndpoint cfg db (some tk) now1).1 = .ok ∧
    (∀ s ∈ (logoutEndpoint cfg db (some tk) now1).2.sessions,
      s.token = tk → s.userId = u.id → s.isActive = false) ∧
    (logoutEndpoint cfg (logoutEndpoint cfg db (some tk) now1).2
      (some tk) now2).1 = .ok ∧
    (logoutEndpoint cfg (logoutEndpoint cfg db (some tk) now1).2
      (some tk) now2).2.sessions =
      (logoutEndpoint cfg db (some tk) now1).2.sessions := by
  subst htk
  have ha1 := authMiddleware_ok cfg db p u now1 h1 hu hact
  have e1 : logoutEndpoint cfg db (some (.signed cfg.secret p)) now1 =
      (.ok, logoutBody (updateLastLogin db u.id now1) u.id
        (.signed cfg.secret p)) := by
    simp [logoutEndpoint, ha1, User.view]
  have hu2 : findUser (logoutBody (updateLastLogin db u.id now1) u.id
      (.signed cfg.secret p)) p.userId = some { u with lastLogin := some now1 } := by
    show findUser (updateLastLogin db u.id now1) p.userId = _
    rw [findUser_updateLastLogin, hu]
    simp
  have ha2 := authMiddleware_ok cfg
    (logoutBody (updateLastLogin db u.id now1) u.id (.signed cfg.secret p))
    p { u with lastLogin := some now1 } now2 h2 hu2 hact
  have e2 : logoutEndpoint cfg
      (logoutBody (updateLastLogin db u.id now1) u.id (.signed cfg.secret p))
      (some (.signed cfg.secret p)) now2 =
      (.ok, logoutBody (updateLastLogin
        (logoutBody (updateLastLogin db u.id now1) u.id (.signed cfg.secret p))
        u.id now2) u.id (.signed cfg.secret p)) := by
    simp [logoutEndpoint, ha2, User.view]
  refine ⟨?_, ?_, ?_, ?_⟩
  · rw [e1]
  · rw [e1]
    intro s hs hst hsu
    simp only [logoutBody, updateLastLogin, List.mem_map] at hs
    rcases hs with ⟨x, hx, hfx⟩
    subst hfx
    by_cases hc : (x.token == (Token.signed cfg.secret p) && x.userId == u.id) = true
    · simp [hc]
    · rw [if_neg hc] at hst hsu ⊢
      exact absurd (by simp [hst, hsu]) hc
  · rw [e1]
    rw [show ((HandlerResult.ok, logoutBody (updateLastLogin db u.id now1) u.id
      (.signed cfg.secret p)) : HandlerResult × DB).2 =
      logoutBody (updateLastLogin db u.id now1) u.id (.signed cfg.secret p) from rfl]
    rw [e2]
  · rw [e1]
    rw [show ((HandlerResult.ok, logoutBody (updateLastLogin db u.id now1) u.id
      (.signed cfg.secret p)) : HandlerResult × DB).2 =
      logoutBody (updateLastLogin db u.id now1) u.id (.signed cfg.secret p) from rfl]
    rw [e2]
    show (logoutBody (updateLastLogin (logoutBody (updateLastLogin db u.id now1)
      u.id (.signed cfg.secret p)) u.id now2) u.id (.signed cfg.secret p)).sessions = _
    simp only [logoutBody, updateLastLogin]
    exact deactivate_idem u.id (.signed cfg.secret p) db.sessions

/-- Witness for `c7_logout_idempotent` on the fixture store. -/
theorem c7_logout_idempotent_witness :
    (logoutEndpoint cfg0 db0 (some at0) 10).1 = .ok ∧
    (logoutEndpoint cfg0 (logoutEndpoint cfg0 db0 (some at0) 10).2
      (some at0) 20).1 = .ok ∧
    (logoutEndpoint cfg0 (logoutEndpoint cfg0 db0 (some at0) 10).2
      (some at0) 20).2.sessions =
      (logoutEndpoint cfg0 db0 (some at0) 10).2.sessions :=
  ⟨(c7_logout_idempotent cfg0 db0 payload0 user0 at0 10 20 rfl (by decide)
      (by decide) (by decide) (by decide)).1,
   (c7_logout_idempotent cfg0 db0 payload0 user0 at0 10 20 rfl (by decide)
      (by decide) (by decide) (by decide)).2.2.1,
   (c7_logout_idempotent cfg0 db0 payload0 user0 at0 10 20 rfl (by decide)
      (by decide) (by decide) (by decide)).2.2.2⟩

/-- **C2 (amended).** Refresh rotation is single-use in sequential execution
once the two conditions the counterexample identifies are required: when a
rotate call accepts a refresh token (valid signature, unexpired, owner
ACTIVE) whose fingerprint matches a unique session row and whose `iat` is
not the instant of the rotate call itself (deterministic `jwt.sign` would
re-mint the identical token then), the call succeeds with a fresh pair,
afterwards no stored session carries the original refresh fingerprint, and a
second rotate call with the same original token — at any later time — fails
with 401 INVALID_REFRESH_TOKEN. -/
theorem c2_refresh_rotation_single_use (cfg : JwtConfig) (db : DB)
    (p : JWTPayload) (s0 : UserSession) (u : User) (rt : Token) (t1 t2 : Nat)
    (hrt : rt = .signed cfg.refreshSecret p)
    (hexp : t1 < p.exp)
    (hs : findActiveSessionByRefresh db rt t1 = some s0)
    (hu : findUser db s0.userId = some u)
    (hact : u.subscriptionStatus = "ACTIVE")
    (hiat : p.iat ≠ t1)
    (huniq : ∀ s' ∈ db.sessions, s'.refreshToken = rt → s'.id = s0.id) :
    (refreshHandler cfg db (some rt) t1).1 =
      .okTokens (generateTokens cfg u t1).1 (generateTokens cfg u t1).2 ∧
    (∀ s' ∈ (refreshHandler cfg db (some rt) t1).2.sessions,
      s'.refreshToken ≠ rt) ∧
    (refreshHandler cfg (refreshHandler cfg db (some rt) t1).2
      (some rt) t2).1 = .err 401 .invalidRefreshToken := by
  subst hrt
  have hver : jwtVerify (.signed cfg.refreshSecret p) cfg.refreshSecret t1 =
      .ok p := by
    simp [jwtVerify, Nat.not_le.mpr hexp]
  have e1 : refreshHandler cfg db (some (.signed cfg.refreshSecret p)) t1 =
      (.okTokens (generateTokens cfg u t1).1 (generateTokens cfg u t1).2,
       updateSessionTokens db s0.id (generateTokens cfg u t1).1
         (generateTokens cfg u t1).2 (t1 + sevenDaysMs)) := by
    simp [refreshHandler, hver, hs, rotateFinish, hu, hact]
  have hne : (generateTokens cfg u t1).2 ≠ Token.signed cfg.refreshSecret p := by
    intro h
    simp only [generateTokens] at h
    injection h with hsec hpay
    have hti := congrArg JWTPayload.iat hpay
    exact hiat hti.symm
  have hmid : ∀ s' ∈ (updateSessionTokens db s0.id (generateTokens cfg u t1).1
      (generateTokens cfg u t1).2 (t1 + sevenDaysMs)).sessions,
      s'.refreshToken ≠ Token.signed cfg.refreshSecret p := by
    intro s' hs'
    simp only [updateSessionTokens, List.mem_map] at hs'
    rcases hs' with ⟨x, hx, hfx⟩
    subst hfx
    by_cases hxid : (x.id == s0.id) = true
    · rw [if_pos hxid]
      exact hne
    · rw [if_neg hxid]
      intro hcontra
      have := huniq x hx hcontra
      simp [this] at hxid
  refine ⟨by rw [e1], ?_, ?_⟩
  · rw [e1]
    exact hmid
  · rw [e1]
    show (refreshHandler cfg (updateSessionTokens db s0.id
      (generateTokens cfg u t1).1 (generateTokens cfg u t1).2
      (t1 + sevenDaysMs)) (some (.signed cfg.refreshSecret p)) t2).1 = _
    cases hv2 : jwtVerify (.signed cfg.refreshSecret p) cfg.refreshSecret t2 with
    | error e => simp [refreshHandler, hv2]
    | ok d =>
      have hfind : findActiveSessionByRefresh (updateSessionTokens db s0.id
          (generateTokens cfg u t1).1 (generateTokens cfg u t1).2
          (t1 + sevenDaysMs)) (.signed cfg.refreshSecret p) t2 = none := by
        unfold findActiveSessionByRefresh
        apply List.find?_eq_none.mpr
        intro x hx
        have hne' := hmid x hx
        simp [hne']
      simp [refreshHandler, hv2, hfind, rotateFinish]

/-- Witness for `c2_refresh_rotation_single_use` on the fixture store: the
first rotate at time 1000 succeeds, the second rotate of the same token at
time 2000 is rejected with 401. -/
theorem c2_refresh_rotation_single_use_witness :
    (refreshHandler cfg0 db0 (some rt0) 1000).1 =
      .okTokens (generateTokens cfg0 user0 1000).1
        (generateTokens cfg0 user0 1000).2 ∧
    (refreshHandler cfg0 (refreshHandler cfg0 db0 (some rt0) 1000).2
      (some rt0) 2000).1 = .err 401 .invalidRefreshToken :=
  ⟨(c2_refresh_rotation_single_use cfg0 db0 payload0 session0 user0 rt0
      1000 2000 rfl (by decide) (by decide) (by decide) (by decide)
      (by decide) (by decide)).1,
   (c2_refresh_rotation_single_use cfg0 db0 payload0 session0 user0 rt0
      1000 2000 rfl (by decide) (by decide) (by decide) (by decide)
      (by decide) (by decide)).2.2⟩

/-- **C5.** After a successful password change, every session of the account
other than the caller's current one (identified by its stored access token)
is inactive, the current session's row is untouched (so it stays active),
and a refresh attempt with the refresh token of any other previously issued
session — unique to that session — fails with 401 INVALID_REFRESH_TOKEN. -/
theorem c5_password_change_revokes_other_sessions (cfg : JwtConfig) (db : DB)
    (p : JWTPayload) (u : User) (tk : Token) (curPw newPw : String) (now : Nat)
    (htk : tk = .signed cfg.secret p)
    (hexp : now < p.exp)
    (hu : findUser db p.userId = some u)
    (hact : u.subscriptionStatus = "ACTIVE")
    (hpw : verifyPassword curPw u.passwordHash = true) :
    (changePasswordEndpoint cfg db (some tk) now true curPw newPw).1 = .ok ∧
    (∀ s ∈ (changePasswordEndpoint cfg db (some tk) now true curPw newPw).2.sessions,
      s.userId = u.id → s.token ≠ tk → s.isActive = false) ∧
    (∀ s ∈ db.sessions, s.token = tk →
      s ∈ (changePasswordEndpoint cfg db (some tk) now true curPw newPw).2.sessions) ∧
    (∀ sO ∈ db.sessions, sO.userId = u.id → sO.token ≠ tk →
      (∀ s' ∈ db.sessions, s'.refreshToken = sO.refreshToken → s' = sO) →
      ∀ t, (refreshHandler cfg
        (changePasswordEndpoint cfg db (some tk) now true curPw newPw).2
        (some sO.refreshToken) t).1 = .err 401 .invalidRefreshToken) := by
  subst htk
  have hid : u.id = p.userId := findUser_some_id hu
  have ha := authMiddleware_ok cfg db p u now hexp hu hact
  have huA : findUser (updateLastLogin db u.id now) u.id =
      some { u with lastLogin := some now } := by
    have hbase : findUser db u.id = some u := by
      rw [hid]; exact hu
    rw [findUser_updateLastLogin, hbase]
    simp
  have e1 : changePasswordEndpoint cfg db (some (.signed cfg.secret p)) now
      true curPw newPw =
      (.ok, deactivateOtherSessions
        (updatePasswordHash (updateLastLogin db u.id now) u.id
          (bcryptHash newPw)) u.id (.signed cfg.secret p)) := by
    simp [changePasswordEndpoint, ha, changePasswordBody, User.view, huA, hpw]
  have hsess : (deactivateOtherSessions
      (updatePasswordHash (updateLastLogin db u.id now) u.id
        (bcryptHash newPw)) u.id (.signed cfg.secret p)).sessions =
      db.sessions.map (fun s =>
        if s.userId == u.id && s.isActive && s.token != (.signed cfg.secret p)
        then { s with isActive := false } else s) := rfl
  refine ⟨by rw [e1], ?_, ?_, ?_⟩
  · rw [e1]
    intro s hs hsu hst
    rw [show ((HandlerResult.ok, deactivateOtherSessions
      (updatePasswordHash (updateLastLogin db u.id now) u.id
        (bcryptHash newPw)) u.id (.signed cfg.secret p)) :
        HandlerResult × DB).2 = deactivateOtherSessions
      (updatePasswordHash (updateLastLogin db u.id now) u.id
        (bcryptHash newPw)) u.id (.signed cfg.secret p) from rfl, hsess,
      List.mem_map] at hs
    rcases hs with ⟨x, hx, hfx⟩
    subst hfx
    by_cases hc : (x.userId == u.id && x.isActive &&
        x.token != (Token.signed cfg.secret p)) = true
    · simp [hc]
    · rw [if_neg hc] at hsu hst ⊢
      by_cases hxa : x.isActive = true
      · exact absurd (by simp [hsu, hxa, hst]) hc
      · simpa using hxa
  · intro s hs hst
    rw [e1]
    rw [show ((HandlerResult.ok, deactivateOtherSessions
      (updatePasswordHash (updateLastLogin db u.id now) u.id
        (bcryptHash newPw)) u.id (.signed cfg.secret p)) :
        HandlerResult × DB).2 = deactivateOtherSessions
      (updatePasswordHash (updateLastLogin db u.id now) u.id
        (bcryptHash newPw)) u.id (.signed cfg.secret p) from rfl, hsess]
    have hfix : (fun s : UserSession =>
        if s.userId == u.id && s.isActive && s.token != (.signed cfg.secret p)
        then { s with isActive := false } else s) s = s := by
      show (if (s.userId == u.id && s.isActive &&
          s.token != (Token.signed cfg.secret p)) = true then
          { s with isActive := false } else s) = s
      rw [if_neg]
      simp [hst]
    exact hfix ▸ List.mem_map_of_mem _ hs
  · intro sO hO hOu hOt huniqO t
    rw [e1]
    rw [show ((HandlerResult.ok, deactivateOtherSessions
      (updatePasswordHash (updateLastLogin db u.id now) u.id
        (bcryptHash newPw)) u.id (.signed cfg.secret p)) :
        HandlerResult × DB).2 = deactivateOtherSessions
      (updatePasswordHash (updateLastLogin db u.id now) u.id
        (bcryptHash newPw)) u.id (.signed cfg.secret p) from rfl]
    cases hv : jwtVerify sO.refreshToken cfg.refreshSecret t with
    | error e => simp [refreshHandler, hv]
    | ok d =>
      have hfind : findActiveSessionByRefresh (deactivateOtherSessions
          (updatePasswordHash (updateLastLogin db u.id now) u.id
            (bcryptHash newPw)) u.id (.signed cfg.secret p))
          sO.refreshToken t = none := by
        unfold findActiveSessionByRefresh
        rw [hsess]
        apply List.find?_eq_none.mpr
        intro x hx
        rcases List.mem_map.mp hx with ⟨y, hy, hfy⟩
        subst hfy
        by_cases hyr : y.refreshToken = sO.refreshToken
        · have hysO : y = sO := huniqO y hy hyr
          subst hysO
          by_cases hya : y.isActive = true
          · rw [if_pos (by simp [hOu, hya, hOt])]
            simp
          · rw [if_neg (by simp [hya])]
            simp [hya]
        · by_cases hc : (y.userId == u.id && y.isActive &&
              y.token != (Token.signed cfg.secret p)) = true
          · rw [if_pos hc]
            simp [hyr]
          · rw [if_neg hc]
            simp [hyr]
      simp [refreshHandler, hv, hfind, rotateFinish]

/-- **C2 counterexample.** The claim as stated — every accepted refresh token
is single-use — fails on the code: `jwt.sign` is deterministic, so a rotate
call at the very instant recorded in the token's `iat` (time 0 for the
fixture token, with unchanged user fields and lifetimes) re-mints the
byte-identical refresh token, the update writes the same fingerprint back,
and a second rotate call with the original token at time 1000 succeeds
instead of failing with 401 InvalidRefreshToken. -/
theorem c2_rotation_same_instant_counterexample :
    (refreshHandler cfg0 db0 (some rt0) 0).1.isSuccess = true ∧
    (refreshHandler cfg0 (refreshHandler cfg0 db0 (some rt0) 0).2
      (some rt0) 1000).1.isSuccess = true ∧
    (refreshHandler cfg0 (refreshHandler cfg0 db0 (some rt0) 0).2
      (some rt0) 1000).1 ≠ .err 401 .invalidRefreshToken := by
  decide

/-- Payload of a second token pair for `u1`, issued at time 5 (a second
device). -/
def payloadOther : JWTPayload :=
  ⟨"u1", "a@x.com", "USER", "BASIC", "ACTIVE", 5, 604800000⟩

/-- Access token of the second device. -/
def atOther : Token := .signed cfg0.secret payloadOther

/-- Refresh token of the second device. -/
def rtOther : Token := .signed cfg0.refreshSecret payloadOther

/-- The second device's active session for `u1`. -/
def sessionOther : UserSession := ⟨1, "u1", atOther, rtOther, 604800000, true⟩

/-- Fixture store with two active sessions for the same user. -/
def db2 : DB := ⟨[user0], [session0, sessionOther], 2⟩

/-- Witness for `c5_password_change_revokes_other_sessions`: on the
two-session fixture, the change succeeds and the second device's refresh
token is afterwards rejected. -/
theorem c5_password_change_revokes_other_sessions_witness :
    (changePasswordEndpoint cfg0 db2 (some at0) 10 true "Aa1!aaaa"
      "Bb2!bbbb").1 = .ok ∧
    (refreshHandler cfg0 (changePasswordEndpoint cfg0 db2 (some at0) 10 true
      "Aa1!aaaa" "Bb2!bbbb").2 (some rtOther) 20).1 =
      .err 401 .invalidRefreshToken :=
  ⟨(c5_password_change_revokes_other_sessions cfg0 db2 payload0 user0 at0
      "Aa1!aaaa" "Bb2!bbbb" 10 rfl (by decide) (by decide) (by decide)
      (by decide)).1,
   (c5_password_change_revokes_other_sessions cfg0 db2 payload0 user0 at0
      "Aa1!aaaa" "Bb2!bbbb" 10 rfl (by decide) (by decide) (by decide)
      (by decide)).2.2.2 sessionOther (by decide) (by decide) (by decide)
      (by decide) 20⟩

end KLM
